import Mathlib

/-!
Verification of the Oracle backend driver of rainfrog
(`src/database/oracle/mod.rs`): a shallow embedding of the task state
machine (`OracleTask`), the polling protocol (`get_query_results`), the
transaction finalization operations (`commit_tx` / `rollback_tx`), the
cancellation operation (`abort_query`), and the two execution primitives
(`query_with_pool` / `execute_with_conn`), together with theorems about
the behaviour the specification describes.

Blocking native-library calls (`pool.get()`, `Connection::query`,
`Connection::execute`, `commit`, `rollback`) are modelled by the outcome
they return in the run under analysis; a `tokio::task::JoinHandle` is
modelled by whether the worker has finished at the moment of observation
together with the outcome it produces once finished.
-/

namespace Oracle

/-- Modelled from the spec: one result column header `{ name, type_name }`
(declared in the sibling `database` module, not in the Oracle source file). -/
structure Header where
  name : String
  type_name : String
deriving DecidableEq

/-- Modelled from the spec: query results — ordered headers, rows of cell
strings, and an optional affected-row count (absence means unknown, not zero).
Declared in the sibling `database` module. -/
structure Rows where
  headers : List Header
  rows : List (List String)
  rows_affected : Option Nat
deriving DecidableEq

/-- The classified SQL statement tag. The Oracle source only distinguishes
`Statement::Query(_)` from every other `sqlparser` variant, so the model keeps
two constructors, each carrying the underlying statement text. -/
inductive Statement where
  | Query (text : String)
  | Other (text : String)
deriving DecidableEq

/-- Modelled from the spec: a query result together with the classified
statement tag. Declared in the sibling `database` module. Errors raised by the
driver are carried as strings (the textual payload of an `eyre` error). -/
structure QueryResultsWithMetadata where
  results : Except String Rows
  statement_type : Statement

/-- Modelled from the spec: the poll outcome
`NoTask | Pending | Finished | ConfirmTx` declared in the sibling `database`
module. -/
inductive DbTaskResult where
  | NoTask
  | Pending
  | Finished (result : QueryResultsWithMetadata)
  | ConfirmTx (rowsAffected : Option Nat) (kind : Statement)

/-- Model of an `oracle::Row`: its column metadata (name and Oracle type name
per column, already rendered to strings) and its textual cell values. -/
structure OraRow where
  column_info : List (String × String)
  sql_values : List String

/-- Model of the value returned by `Connection::execute`: only `row_count` is
read by the driver, and it is itself fallible in the native library. -/
structure ExecResult where
  row_count : Except String Nat

/-- Model of a native `oracle::Connection`: each blocking operation is
represented by the outcome it returns in the run under analysis. `query`
yields the backend's result set — a list of per-row fetch outcomes, since each
row is fetched fallibly. -/
structure Connection where
  query : String → Except String (List (Except String OraRow))
  execute : String → Except String ExecResult
  commit : Except String Unit
  rollback : Except String Unit

/-- Model of the bounded connection pool handle: `get` is the outcome of a
checkout (`Err` when the pool is exhausted or the backend is unreachable). -/
structure Pool where
  get : Except String Connection

/-- Mirror of Rust `Result::ok()`: keep the success value, drop the error. -/
def exceptOk {ε α : Type} : Except ε α → Option α
  | .ok a => some a
  | .error _ => none

/-- `get_headers` (mod.rs:195-201): map each column's name and Oracle type to
a `Header`. -/
def get_headers (row : OraRow) : List Header :=
  row.column_info.map fun col => { name := col.1, type_name := col.2 }

/-- `row_to_vec` (mod.rs:203-205): the textual cell values of a row. -/
def row_to_vec (row : OraRow) : List String :=
  row.sql_values

/-- The header-capture-and-row-collection loop of `query_with_pool`
(mod.rs:177-185): the closure mutates `headers`, setting it from the current
row whenever it is still empty, and collects `row_to_vec` of every
successfully fetched row. Returns (final headers, collected rows). -/
def collectRows : List OraRow → List Header → List Header × List (List String)
  | [], headers => (headers, [])
  | row :: rest, headers =>
    let headers2 := if headers.isEmpty then get_headers row else headers
    let p := collectRows rest headers2
    (p.1, row_to_vec row :: p.2)

/-- `query_with_pool` (mod.rs:171-188): check out a connection, run the query,
silently drop rows whose fetch failed (`filter_map(|row| row.ok())`), capture
headers from the first successfully fetched row, and always report
`rows_affected: None`. -/
def query_with_pool (pool : Pool) (query : String) : Except String Rows :=
  match pool.get with
  | .error e => .error e
  | .ok conn =>
    match conn.query query with
    | .error e => .error ("Error executing query: " ++ e)
    | .ok resultSet =>
      let fetched := resultSet.filterMap exceptOk
      let p := collectRows fetched []
      .ok { headers := p.1, rows := p.2, rows_affected := none }

/-- `execute_with_conn` (mod.rs:190-193): execute a mutating statement on an
owned connection; report only `row_count().ok()` — no headers, no rows. -/
def execute_with_conn (conn : Connection) (statement : String) : Except String Rows :=
  match conn.execute statement with
  | .error e => .error ("Error executing statement: " ++ e)
  | .ok result => .ok { headers := [], rows := [], rows_affected := exceptOk result.row_count }

/-- Outcome a spawned worker closure produces: a normal return value, or an
abnormal termination (panic or cancellation), which tokio surfaces as a
`JoinError` when the handle is awaited. -/
inductive SpawnOutcome (α : Type) where
  | value (v : α)
  | panicked (msg : String)

/-- Model of a `tokio::task::JoinHandle`: whether the worker has finished at
the moment of observation, and the outcome it produces once finished. -/
structure JoinHandle (α : Type) where
  finished : Bool
  outcome : SpawnOutcome α

/-- `JoinHandle::is_finished`. -/
def JoinHandle.is_finished {α : Type} (h : JoinHandle α) : Bool :=
  h.finished

/-- Awaiting a finished handle: the worker's value, or the `JoinError`
(propagated by `?` through `eyre` in the source). -/
def JoinHandle.join {α : Type} (h : JoinHandle α) : Except String α :=
  match h.outcome with
  | .value v => .ok v
  | .panicked m => .error m

/-- `QueryTask` of the sibling `database` module. -/
abbrev QueryTask := JoinHandle QueryResultsWithMetadata

/-- `TransactionTask` (mod.rs:16). -/
abbrev TransactionTask := JoinHandle (QueryResultsWithMetadata × Connection)

/-- `OracleTask` (mod.rs:17-21): the single task slot's occupant. -/
inductive OracleTask where
  | Query (handle : QueryTask)
  | TxStart (handle : TransactionTask)
  | TxPending (conn : Connection) (results : QueryResultsWithMetadata)

/-- `OracleDriver` (mod.rs:23-27). -/
structure OracleDriver where
  pool : Option Pool
  task : Option OracleTask

/-- The worker closure spawned for a read query (mod.rs:53-56): runs
`query_with_pool` and wraps the result; it never panics, errors being data. -/
def queryWorker (pool : Pool) (first_query : String) (statement_type : Statement) :
    SpawnOutcome QueryResultsWithMetadata :=
  .value { results := query_with_pool pool first_query, statement_type := statement_type }

/-- The worker closure spawned for a mutating statement (mod.rs:57-69): it
checks out a connection with `pool.get().unwrap()` — panicking if checkout
fails — then executes the statement and returns the result together with the
still-owned connection. -/
def txWorker (pool : Pool) (first_query : String) (statement_type : Statement) :
    SpawnOutcome (QueryResultsWithMetadata × Connection) :=
  match pool.get with
  | .error e => .panicked ("called Result::unwrap on an Err value: " ++ e)
  | .ok conn =>
    .value ({ results := execute_with_conn conn first_query, statement_type := statement_type }, conn)

/-- Return discipline of a Rust function that can also terminate abnormally:
either a normal return value or an unwound panic. -/
inductive RustOutcome (α : Type) where
  | ret (a : α)
  | panicked (msg : String)

/-- `start_query` (mod.rs:48-75). The statement classifier
(`super::get_first_query`) lives outside this source file, so its outcome for
the given query is passed in as `classified`; a classifier error propagates
via `?`. On success, `self.pool.clone().unwrap()` panics when `init` was never
called; otherwise a read query spawns a `Query` worker and any other statement
spawns a `TxStart` worker, and the freshly spawned handle (not yet finished)
overwrites the task slot. -/
def start_query (d : OracleDriver) (classified : Except String (String × Statement)) :
    RustOutcome (Except String Unit × OracleDriver) :=
  match classified with
  | .error e => .ret (.error e, d)
  | .ok (first_query, statement_type) =>
    match d.pool with
    | none => .panicked "called Option::unwrap on a None value"
    | some pool =>
      match statement_type with
      | .Query t =>
        .ret (.ok (),
          { d with task := some (.Query
              { finished := false, outcome := queryWorker pool first_query (.Query t) }) })
      | .Other t =>
        .ret (.ok (),
          { d with task := some (.TxStart
              { finished := false, outcome := txWorker pool first_query (.Other t) }) })

/-- `start_tx` (mod.rs:121-123): an alias of `start_query`. -/
def start_tx (d : OracleDriver) (classified : Except String (String × Statement)) :
    RustOutcome (Except String Unit × OracleDriver) :=
  start_query d classified

/-- `abort_query` (mod.rs:77-88): take whatever occupies the slot; signal
abort on a `Query`/`TxStart` handle (a side effect on the worker only, not on
driver state — and the handle is dropped regardless); report whether a task
was present. Never errors. -/
def abort_query (d : OracleDriver) : Except String Bool × OracleDriver :=
  match d.task with
  | some _ => (.ok true, { d with task := none })
  | none => (.ok false, d)

/-- `get_query_results` (mod.rs:90-119): take the task out of the slot,
compute the poll outcome and the slot's next occupant, and store the latter
back. A `JoinError` from `handle.await?` returns early — after the take, so
the slot stays empty. -/
def get_query_results (d : OracleDriver) : Except String DbTaskResult × OracleDriver :=
  match d.task with
  | none => (.ok .NoTask, { d with task := none })
  | some (.Query handle) =>
    if !handle.is_finished then
      (.ok .Pending, { d with task := some (.Query handle) })
    else
      match handle.join with
      | .ok r => (.ok (.Finished r), { d with task := none })
      | .error e => (.error e, { d with task := none })
  | some (.TxStart handle) =>
    if !handle.is_finished then
      (.ok .Pending, { d with task := some (.TxStart handle) })
    else
      match handle.join with
      | .ok rc =>
        let rows_affected :=
          match rc.1.results with
          | .ok rows => rows.rows_affected
          | .error _ => none
        (.ok (.ConfirmTx rows_affected rc.1.statement_type),
         { d with task := some (.TxPending rc.2 rc.1) })
      | .error e => (.error e, { d with task := none })
  | some (.TxPending conn results) =>
    (.ok .Pending, { d with task := some (.TxPending conn results) })

/-- `commit_tx` (mod.rs:125-132): `self.task.take()` runs unconditionally, so
the slot is empty afterwards in every case; only a `TxPending` occupant leads
to a commit on the held connection (whose failure propagates via `?`) and the
held result being returned. -/
def commit_tx (d : OracleDriver) :
    Except String (Option QueryResultsWithMetadata) × OracleDriver :=
  match d.task with
  | some (.TxPending conn results) =>
    (match conn.commit with
     | .ok _ => .ok (some results)
     | .error e => .error e,
     { d with task := none })
  | _ => (.ok none, { d with task := none })

/-- `rollback_tx` (mod.rs:134-141): symmetric to `commit_tx`, returning unit. -/
def rollback_tx (d : OracleDriver) : Except String Unit × OracleDriver :=
  match d.task with
  | some (.TxPending conn _) =>
    (match conn.rollback with
     | .ok _ => .ok ()
     | .error e => .error e,
     { d with task := none })
  | _ => (.ok (), { d with task := none })

/-! ### Concrete values used by the instance theorems -/

/-- A pool whose checkout fails (pool exhausted). -/
def pool0 : Pool :=
  { get := .error "PoolExhausted" }

/-- A one-column, one-cell row. -/
def row1 : OraRow :=
  { column_info := [("ID", "NUMBER")], sql_values := ["1"] }

/-- A second row of the same shape. -/
def row2 : OraRow :=
  { column_info := [("ID", "NUMBER")], sql_values := ["2"] }

/-- A connection on which queries succeed (one row fetch fails, two succeed),
mutations succeed reporting 3 affected rows, and finalize operations succeed. -/
def connOk : Connection :=
  { query := fun _ => .ok [.error "fetch error", .ok row1, .ok row2]
  , execute := fun _ => .ok { row_count := .ok 3 }
  , commit := .ok ()
  , rollback := .ok () }

/-- A pool that yields `connOk`. -/
def poolOk : Pool :=
  { get := .ok connOk }

/-- A connection on which statement execution and rollback fail. -/
def connFail : Connection :=
  { query := fun _ => .ok []
  , execute := fun _ => .error "ORA-00001"
  , commit := .ok ()
  , rollback := .error "ORA-01031" }

/-- A failed mutating-statement result. -/
def resultErr : QueryResultsWithMetadata :=
  { results := .error "Error executing statement: ORA-00001"
  , statement_type := .Other "UPDATE t SET x = 1" }

/-- A successful zero-row read result. -/
def resultRead : QueryResultsWithMetadata :=
  { results := .ok { headers := [], rows := [], rows_affected := none }
  , statement_type := .Query "SELECT 1 FROM dual" }

/-- A driver whose slot holds a finished `TxStart` worker that produced a
failed execution result together with its connection. -/
def d1 : OracleDriver :=
  { pool := some poolOk
  , task := some (.TxStart { finished := true, outcome := .value (resultErr, connFail) }) }

/-- A driver whose slot holds a finished read-query worker. -/
def d2 : OracleDriver :=
  { pool := some poolOk
  , task := some (.Query { finished := true, outcome := .value resultRead }) }

/-! ### Theorems for the claims -/

/-- C1: when a `TxStart` worker has finished with value `(result, conn)`, the
next `get_query_results` returns `ConfirmTx` carrying the result's
`rows_affected` (when the execution succeeded; `none` when it failed) and the
statement kind, and the slot transitions to `TxPending` holding the connection
and the full result — also when the result is an `Err`. -/
theorem txStart_finished_confirmTx (d : OracleDriver) (h : TransactionTask)
    (result : QueryResultsWithMetadata) (conn : Connection)
    (htask : d.task = some (.TxStart h))
    (hfin : h.finished = true)
    (hout : h.outcome = .value (result, conn)) :
    get_query_results d =
      (.ok (.ConfirmTx
          (match result.results with
           | .ok rows => rows.rows_affected
           | .error _ => none)
          result.statement_type),
       { d with task := some (.TxPending conn result) }) := by
  obtain ⟨p, t⟩ := d
  dsimp only at htask
  subst htask
  simp [get_query_results, JoinHandle.is_finished, hfin, JoinHandle.join, hout]

/-- C1 instance: polling `d1` (a finished `TxStart` whose execution failed)
yields `ConfirmTx none` with the statement kind, and the slot now holds a
`TxPending` with the connection and the `Err` result. -/
theorem txStart_finished_confirmTx_instance :
    get_query_results d1 =
      (.ok (.ConfirmTx none (.Other "UPDATE t SET x = 1")),
       { d1 with task := some (.TxPending connFail resultErr) }) := by
  have h := txStart_finished_confirmTx d1
    { finished := true, outcome := .value (resultErr, connFail) }
    resultErr connFail rfl rfl rfl
  simpa [resultErr] using h

/-- C2: a completed `Query` task is delivered exactly once — the poll returns
`Finished` with the task's result and clears the slot, and polling the cleared
driver returns `NoTask` leaving it unchanged (so every following call does);
while the worker is not finished the poll returns `Pending` and the driver,
task handle included, is unchanged. -/
theorem query_task_exactly_once (d : OracleDriver) (h : QueryTask)
    (v : QueryResultsWithMetadata)
    (htask : d.task = some (.Query h)) :
    (h.finished = true → h.outcome = .value v →
      get_query_results d = (.ok (.Finished v), { d with task := none }) ∧
      get_query_results { d with task := none } = (.ok .NoTask, { d with task := none })) ∧
    (h.finished = false → get_query_results d = (.ok .Pending, d)) := by
  obtain ⟨p, t⟩ := d
  dsimp only at htask
  subst htask
  constructor
  · intro hfin hout
    constructor
    · simp [get_query_results, JoinHandle.is_finished, hfin, JoinHandle.join, hout]
    · simp [get_query_results]
  · intro hfin
    simp [get_query_results, JoinHandle.is_finished, hfin]

/-- C2 instance: delivery of `d2`'s finished read result, then `NoTask`. -/
theorem query_task_exactly_once_instance :
    get_query_results d2 = (.ok (.Finished resultRead), { d2 with task := none }) ∧
    get_query_results { d2 with task := none } = (.ok .NoTask, { d2 with task := none }) :=
  (query_task_exactly_once d2
    { finished := true, outcome := .value resultRead } resultRead rfl).1 rfl rfl

/-- The driver right after `init` (idle, pool exhausted for the next checkout). -/
def dX : OracleDriver :=
  { pool := some pool0, task := none }

/-- A mutating statement used in the exhausted-pool scenario. -/
def stmtX : Statement :=
  .Other "UPDATE t SET x = 1"

/-- The driver `start_query` produces from `dX` on `stmtX`: the slot holds a
fresh `TxStart` handle whose worker hits the failed checkout. -/
def dX2 : OracleDriver :=
  { pool := some pool0
  , task := some (.TxStart
      { finished := false, outcome := txWorker pool0 "UPDATE t SET x = 1" stmtX }) }

/-- A driver whose slot holds a pending transaction. -/
def dP : OracleDriver :=
  { pool := some poolOk, task := some (.TxPending connOk resultErr) }

/-- C3 counterexample: starting a mutating statement on a driver whose pool
checkout fails does not make `start_query` fail — it returns `Ok(())` and a
`TxStart` task is installed, so the slot does not remain empty. -/
theorem start_query_pool_exhausted_counterexample :
    start_query dX (.ok ("UPDATE t SET x = 1", stmtX)) = .ret (.ok (), dX2) ∧
    dX2.task ≠ none := by
  constructor
  · rfl
  · simp [dX2]

/-- C3 amended: when the pool checkout fails and a mutating statement is
started, `start_query` still returns `Ok(())` and installs a `TxStart` task
whose worker panics on the checkout error (`unwrap` on the `Err`), so the
failure surfaces only later, from `get_query_results`, as a task join error. -/
theorem start_query_pool_exhausted_spawns_panicking_worker
    (d : OracleDriver) (pool : Pool) (e q t : String)
    (hpool : d.pool = some pool) (hget : pool.get = .error e) :
    start_query d (.ok (q, .Other t)) =
      .ret (.ok (),
        { d with task := some (.TxStart
            { finished := false
            , outcome := .panicked ("called Result::unwrap on an Err value: " ++ e) }) }) := by
  simp [start_query, hpool, txWorker, hget]

/-- C3 amended instance: the exhausted-pool scenario evaluated on `dX`. -/
theorem start_query_pool_exhausted_spawns_panicking_worker_instance :
    start_query dX (.ok ("UPDATE t SET x = 1", .Other "UPDATE t SET x = 1")) =
      .ret (.ok (),
        { dX with task := some (.TxStart
            { finished := false
            , outcome := .panicked ("called Result::unwrap on an Err value: " ++ "PoolExhausted") }) }) :=
  start_query_pool_exhausted_spawns_panicking_worker dX pool0 "PoolExhausted"
    "UPDATE t SET x = 1" "UPDATE t SET x = 1" rfl rfl

/-- C4 counterexample: aborting a driver whose slot holds a `TxPending` does
empty the slot, but it does not report "no task was aborted" — the returned
value is not `Ok(false)`. -/
theorem abort_txPending_counterexample :
    (abort_query dP).1 ≠ .ok false ∧ (abort_query dP).2.task = none := by
  constructor
  · simp [abort_query, dP]
  · simp [abort_query, dP]

/-- C4 amended: when the slot holds a `TxPending`, `abort_query` empties the
slot and returns `Ok(true)` — a task was present — even though no cancellation
signal exists to send for a held-open transaction. -/
theorem abort_txPending_returns_true (d : OracleDriver) (conn : Connection)
    (r : QueryResultsWithMetadata)
    (htask : d.task = some (.TxPending conn r)) :
    abort_query d = (.ok true, { d with task := none }) := by
  obtain ⟨p, t⟩ := d
  dsimp only at htask
  subst htask
  rfl

/-- C4 amended instance: aborting `dP` returns `Ok(true)` and clears the slot. -/
theorem abort_txPending_returns_true_instance :
    abort_query dP = (.ok true, { dP with task := none }) :=
  abort_txPending_returns_true dP connOk resultErr rfl

/-- C6: when the slot does not hold a pending transaction, `commit_tx` returns
`Ok(None)` and `rollback_tx` returns `Ok(())` — neither errors. -/
theorem finalize_ok_on_no_txPending (d : OracleDriver)
    (hnp : ∀ conn r, d.task ≠ some (.TxPending conn r)) :
    (commit_tx d).1 = .ok none ∧ (rollback_tx d).1 = .ok () := by
  obtain ⟨p, t⟩ := d
  cases t with
  | none => simp [commit_tx, rollback_tx]
  | some tk =>
    cases tk with
    | Query h => simp [commit_tx, rollback_tx]
    | TxStart h => simp [commit_tx, rollback_tx]
    | TxPending conn r => exact absurd rfl (hnp conn r)

/-- C6 instance: finalizing an idle driver is a no-op success. -/
theorem finalize_ok_on_no_txPending_instance :
    (commit_tx { pool := none, task := none }).1 = .ok none ∧
    (rollback_tx { pool := none, task := none }).1 = .ok () :=
  finalize_ok_on_no_txPending { pool := none, task := none } (by simp)

/-- C7: on a `TxPending` slot, `commit_tx` commits on the held connection,
clears the slot and returns the held result (the commit error is surfaced when
the commit fails); and after any `commit_tx` or `rollback_tx` — on any slot
state, whatever the backend outcome — the slot is empty. -/
theorem commit_rollback_clear_slot (d : OracleDriver) :
    (∀ conn r, d.task = some (.TxPending conn r) →
      (conn.commit = .ok () → commit_tx d = (.ok (some r), { d with task := none })) ∧
      (∀ e, conn.commit = .error e → commit_tx d = (.error e, { d with task := none }))) ∧
    (commit_tx d).2.task = none ∧ (rollback_tx d).2.task = none := by
  refine ⟨?_, ?_, ?_⟩
  · intro conn r htask
    obtain ⟨p, t⟩ := d
    dsimp only at htask
    subst htask
    constructor
    · intro hcm
      simp [commit_tx, hcm]
    · intro e hcm
      simp [commit_tx, hcm]
  · obtain ⟨p, t⟩ := d
    cases t with
    | none => rfl
    | some tk => cases tk <;> rfl
  · obtain ⟨p, t⟩ := d
    cases t with
    | none => rfl
    | some tk => cases tk <;> rfl

/-- C7 instance: committing `dP` succeeds, returns the held result and leaves
the slot empty; rolling back also leaves the slot empty. -/
theorem commit_rollback_clear_slot_instance :
    commit_tx dP = (.ok (some resultErr), { dP with task := none }) ∧
    (rollback_tx dP).2.task = none := by
  have h := commit_rollback_clear_slot dP
  exact ⟨(h.1 connOk resultErr rfl).1 rfl, h.2.2⟩

/-- C5: for every driver state, `abort_query` returns `Ok` of exactly whether
a task was present, and always leaves the task slot empty. -/
theorem abort_clears_slot_iff_present (d : OracleDriver) :
    (abort_query d).1 = .ok d.task.isSome ∧ (abort_query d).2.task = none := by
  obtain ⟨p, t⟩ := d
  cases t with
  | none => simp [abort_query]
  | some tk => simp [abort_query]

/-- A pool that yields `connFail` (whose queries return zero rows). -/
def poolNoRows : Pool :=
  { get := .ok connFail }

/-- C8: the read path always reports `rows_affected = none`; the mutation path
always reports empty headers and rows with `rows_affected` equal to the
backend's count when reported and absent otherwise; and a read returning zero
rows yields empty headers and rows without error. -/
theorem rows_shape_invariants :
    (∀ pool q rows, query_with_pool pool q = .ok rows → rows.rows_affected = none) ∧
    (∀ conn s r, conn.execute s = .ok r →
      execute_with_conn conn s =
        .ok { headers := [], rows := [], rows_affected := exceptOk r.row_count }) ∧
    (∀ pool q conn, pool.get = .ok conn → conn.query q = .ok [] →
      query_with_pool pool q = .ok { headers := [], rows := [], rows_affected := none }) := by
  refine ⟨?_, ?_, ?_⟩
  · intro pool q rows hok
    cases hget : pool.get with
    | error e => simp [query_with_pool, hget] at hok
    | ok conn =>
      cases hq : conn.query q with
      | error e => simp [query_with_pool, hget, hq] at hok
      | ok rs =>
        simp only [query_with_pool, hget, hq, Except.ok.injEq] at hok
        rw [← hok]
  · intro conn s r hex
    simp [execute_with_conn, hex]
  · intro pool q conn hget hq
    simp [query_with_pool, hget, hq, collectRows]

/-- C8 instance: a mutation on `connOk` reports 3 affected rows and empty
headers/rows; a zero-row read through `poolNoRows` yields empty headers and
rows with no affected count. -/
theorem rows_shape_invariants_instance :
    execute_with_conn connOk "UPDATE t SET x = 1" =
      .ok { headers := [], rows := [], rows_affected := some 3 } ∧
    query_with_pool poolNoRows "SELECT 1 FROM t" =
      .ok { headers := [], rows := [], rows_affected := none } := by
  constructor
  · have h := rows_shape_invariants.2.1 connOk "UPDATE t SET x = 1" { row_count := .ok 3 } rfl
    simpa [exceptOk] using h
  · exact rows_shape_invariants.2.2 poolNoRows "SELECT 1 FROM t" connFail rfl rfl

/-- C9: if a `Query` or `TxStart` worker terminated abnormally, the next poll
propagates the join error and empties the slot, and polling the now-empty
driver reports `NoTask` — so the failure is delivered exactly once. -/
theorem join_error_propagated_once (d : OracleDriver) (e : String) :
    (∀ h, d.task = some (.Query h) → h.finished = true → h.outcome = .panicked e →
      get_query_results d = (.error e, { d with task := none }) ∧
      get_query_results { d with task := none } = (.ok .NoTask, { d with task := none })) ∧
    (∀ h, d.task = some (.TxStart h) → h.finished = true → h.outcome = .panicked e →
      get_query_results d = (.error e, { d with task := none }) ∧
      get_query_results { d with task := none } = (.ok .NoTask, { d with task := none })) := by
  constructor
  · intro h htask hfin hout
    obtain ⟨p, t⟩ := d
    dsimp only at htask
    subst htask
    constructor
    · simp [get_query_results, JoinHandle.is_finished, hfin, JoinHandle.join, hout]
    · simp [get_query_results]
  · intro h htask hfin hout
    obtain ⟨p, t⟩ := d
    dsimp only at htask
    subst htask
    constructor
    · simp [get_query_results, JoinHandle.is_finished, hfin, JoinHandle.join, hout]
    · simp [get_query_results]

/-- A driver whose read-query worker terminated abnormally. -/
def d9 : OracleDriver :=
  { pool := some poolOk
  , task := some (.Query { finished := true, outcome := .panicked "task 42 panicked" }) }

/-- C9 instance: polling `d9` surfaces the join error once, then `NoTask`. -/
theorem join_error_propagated_once_instance :
    get_query_results d9 = (.error "task 42 panicked", { d9 with task := none }) ∧
    get_query_results { d9 with task := none } = (.ok .NoTask, { d9 with task := none }) :=
  (join_error_propagated_once d9 "task 42 panicked").1
    { finished := true, outcome := .panicked "task 42 panicked" } rfl rfl rfl

/-- The collected rows are exactly `row_to_vec` of every successfully fetched
row, in order, whatever the headers accumulator holds. -/
theorem collectRows_snd (l : List OraRow) :
    ∀ acc : List Header, (collectRows l acc).2 = l.map row_to_vec := by
  induction l with
  | nil => intro acc; rfl
  | cons r rest ih => intro acc; simp [collectRows, ih]

/-- Once the headers accumulator is non-empty it is never overwritten. -/
theorem collectRows_fst_of_ne_nil (l : List OraRow) :
    ∀ acc : List Header, acc ≠ [] → (collectRows l acc).1 = acc := by
  induction l with
  | nil => intro acc _; rfl
  | cons r rest ih =>
    intro acc h
    obtain ⟨a, as, rfl⟩ : ∃ a as, acc = a :: as := by
      cases acc with
      | nil => exact absurd rfl h
      | cons a as => exact ⟨a, as, rfl⟩
    simp [collectRows, ih (a :: as) (by simp)]

/-- C10: on the read path, a row whose fetch fails is silently skipped — the
returned rows are exactly the successfully fetched ones (hence possibly fewer
than the backend produced) — and the headers are captured from the first
successfully fetched row (when it has columns), not necessarily the first row
of the backend's result set. -/
theorem read_path_skips_failed_rows (pool : Pool) (q : String) (conn : Connection)
    (resultSet : List (Except String OraRow))
    (hget : pool.get = .ok conn) (hq : conn.query q = .ok resultSet) :
    ∃ rows, query_with_pool pool q = .ok rows ∧
      rows.rows = (resultSet.filterMap exceptOk).map row_to_vec ∧
      rows.rows.length ≤ resultSet.length ∧
      (∀ r rest, resultSet.filterMap exceptOk = r :: rest → get_headers r ≠ [] →
        rows.headers = get_headers r) := by
  refine ⟨{ headers := (collectRows (resultSet.filterMap exceptOk) []).1
          , rows := (collectRows (resultSet.filterMap exceptOk) []).2
          , rows_affected := none }, ?_, ?_, ?_, ?_⟩
  · simp [query_with_pool, hget, hq]
  · exact collectRows_snd _ _
  · rw [collectRows_snd, List.length_map]
    exact List.length_filterMap_le _ _
  · intro r rest hfm hne
    dsimp only
    rw [hfm]
    simp [collectRows]
    exact collectRows_fst_of_ne_nil rest (get_headers r) hne

/-- C10 instance: on `connOk`'s result set (one failed fetch, then two good
rows) the query returns the two good rows and takes its headers from the
first successfully fetched row. -/
theorem read_path_skips_failed_rows_instance :
    ∃ rows, query_with_pool poolOk "SELECT ID FROM t" = .ok rows ∧
      rows.rows = [["1"], ["2"]] ∧ rows.rows.length ≤ 3 ∧
      rows.headers = get_headers row1 := by
  obtain ⟨rows, h1, h2, h3, h4⟩ :=
    read_path_skips_failed_rows poolOk "SELECT ID FROM t" connOk
      [.error "fetch error", .ok row1, .ok row2] rfl rfl
  refine ⟨rows, h1, ?_, ?_, ?_⟩
  · simpa [exceptOk, row_to_vec, row1, row2] using h2
  · simpa using h3
  · exact h4 row1 [row2] (by simp [exceptOk]) (by simp [get_headers, row1])

end Oracle
